import Mathlib

/-!
# Verification of the openclaw-vscode gateway connection clients

Shallow embedding of the two socket-session clients of the repository:

* `AntigravityGatewayClient` (source file `part_000`, plain JS): challenge /
  response handshake, pending-request table keyed by string ids, request
  timeout, close handling.
* `GatewayConnection` (source file `part_001`, TypeScript): pending-request
  table keyed by numeric ids, inbound `vscode.invoke` dispatch, reconnect
  timer supervision.

JavaScript objects are modelled by a small JSON value type; the callback
handlers become pure step functions from a client state and an inbound
event to a new state plus a list of observable effects (frames written to
the socket, promise resolutions / rejections, observer callbacks).
`JSON.parse` failure is modelled by the inbound-data constructor
`RawData.malformed`: the `part_000` handler has no try/catch around the
parse, so there it surfaces as an uncaught fault, while the `part_001`
handler wraps everything in try/catch and swallows it.
-/

namespace Gateway

mutual
/-- JSON values (JavaScript objects on the wire).  Field order in `obj` is
the literal order of the source object literals; lookup takes the first
match, as in a JS object with distinct keys. -/
inductive Json where
  | null
  | bool (b : Bool)
  | num (n : Int)
  | str (s : String)
  | arr (elts : JsonList)
  | obj (fields : JsonFields)
deriving DecidableEq, Repr

/-- A list of JSON values (element list of a JSON array). -/
inductive JsonList where
  | nil
  | cons (hd : Json) (tl : JsonList)
deriving DecidableEq, Repr

/-- The key/value fields of a JSON object, in literal order. -/
inductive JsonFields where
  | nil
  | cons (key : String) (val : Json) (tl : JsonFields)
deriving DecidableEq, Repr
end

/-- Build a `JsonList` from a Lean list (notation helper for literals). -/
def JsonList.ofList : List Json → JsonList
  | [] => .nil
  | x :: xs => .cons x (JsonList.ofList xs)

/-- Build `JsonFields` from a Lean association list (notation helper). -/
def JsonFields.ofList : List (String × Json) → JsonFields
  | [] => .nil
  | (k, v) :: xs => .cons k v (JsonFields.ofList xs)

/-- JSON array literal from a Lean list. -/
def jarr (l : List Json) : Json := .arr (JsonList.ofList l)

/-- JSON object literal from a Lean association list. -/
def jobj (l : List (String × Json)) : Json := .obj (JsonFields.ofList l)

/-- First binding of `key`, as JS property lookup on distinct-key objects. -/
def JsonFields.lookup : JsonFields → String → Option Json
  | .nil, _ => none
  | .cons k v tl, key => if k = key then some v else tl.lookup key

/-- Property access `j.k` on a JSON value: `none` models `undefined`. -/
def Json.get : Json → String → Option Json
  | .obj fields, k => fields.lookup k
  | _, _ => none

/-- Optional chaining `j?.k` on a possibly-undefined value. -/
def getOpt (j : Option Json) (k : String) : Option Json :=
  j.bind (fun v => v.get k)

/-- JavaScript truthiness of a defined value. -/
def Json.truthy : Json → Bool
  | .null => false
  | .bool b => b
  | .num n => n != 0
  | .str s => s != ""
  | .arr _ => true
  | .obj _ => true

/-- JavaScript truthiness where `none` is `undefined` (falsy). -/
def truthyOpt : Option Json → Bool
  | none => false
  | some j => j.truthy

/-- `String(v)` as used by `new Error(v)` for a non-string value; only the
string case is exercised by the protocol. -/
def jsShow : Json → String
  | .null => "null"
  | .bool true => "true"
  | .bool false => "false"
  | .num n => toString n
  | .str s => s
  | .arr _ => "[array]"
  | .obj _ => "[object Object]"

/-- `v || fallback` for an error-message field: a truthy value is used
(stringified by `new Error`), anything falsy or undefined falls back. -/
def orElseMsg (v : Option Json) (fallback : String) : String :=
  match v with
  | some j => if j.truthy then jsShow j else fallback
  | none => fallback

/-- WebSocket `readyState` values. -/
inductive WsReady where
  | connecting
  | opened
  | closing
  | closed
deriving DecidableEq, Repr

/-! ## Part 000: `AntigravityGatewayClient` -/

/-- State of an `AntigravityGatewayClient` instance (source `part_000`).
`ws = none` models `this.ws === null`; otherwise it carries the socket's
`readyState`.  `pending` holds the keys of `this.pendingRequests` (string
ids, stored as JSON values so that `Map.has(msg.id)` compares JS values
faithfully). -/
structure Client where
  token : String
  ws : Option WsReady
  messageId : Int
  pending : List Json
  connected : Bool
  authenticated : Bool
  serverInfo : Option Json
deriving DecidableEq, Repr

/-- What `resolve` of the in-flight `connect()` promise is called with:
the code's `resolve(this)` is `ConnectResolution.client`; the constructor
`payload` exists so the specification's claim (resolution with the hello-ok
payload) can be stated and compared. -/
inductive ConnectResolution where
  | client
  | payload (p : Json)
deriving DecidableEq, Repr

/-- Observable effects of one handler run of `AntigravityGatewayClient`. -/
inductive Effect where
  | sendFrame (j : Json)
  | resolveConnect (r : ConnectResolution)
  | rejectConnect (msg : String)
  | resolvePending (id : Json) (payload : Option Json)
  | rejectPending (id : Json) (msg : String)
  | onMessage (j : Json)
deriving DecidableEq, Repr

/-- `send(message)`: transmits only when the socket exists and its
`readyState` is `OPEN`; otherwise the message is silently dropped. -/
def send (c : Client) (m : Json) : List Effect :=
  if c.ws = some WsReady.opened then [Effect.sendFrame m] else []

/-- The frame built by `sendConnect` (the `nonce` argument is accepted by
the source function but never placed in the message).  `now` models
`Date.now()`. -/
def connectFrame (c : Client) (now : Nat) : Json :=
  jobj [("type", .str "req"),
        ("id", .str ("connect-" ++ toString now)),
        ("method", .str "connect"),
        ("params", jobj
          [("minProtocol", .num 3),
           ("maxProtocol", .num 3),
           ("client", jobj [("id", .str "cli"), ("version", .str "0.1.0"),
                            ("platform", .str "win32"), ("mode", .str "cli")]),
           ("role", .str "operator"),
           ("scopes", jarr [.str "operator.read", .str "operator.write",
                            .str "operator.admin"]),
           ("caps", jarr []),
           ("commands", jarr []),
           ("permissions", jobj []),
           ("auth", jobj [("token", .str c.token)]),
           ("locale", .str "en-US"),
           ("userAgent", .str "antigravity-vscode/0.1.0")])]

/-- `this.pendingRequests.delete(id)` (keys are unique in a `Map`). -/
def removePending (c : Client) (id : Json) : Client :=
  { c with pending := c.pending.filter (fun i => i != id) }

/-- `msg.id && this.pendingRequests.has(msg.id)`. -/
def pendingHit (c : Client) (msg : Json) : Bool :=
  match msg.get "id" with
  | some i => i.truthy && c.pending.contains i
  | none => false

/-- The pending-response branch: delete the entry, then resolve with
`msg.payload` when `msg.ok` is truthy, else reject with
`msg.error?.message || 'Request failed'`. -/
def completeResponse (c : Client) (msg : Json) : Client × List Effect :=
  match msg.get "id" with
  | some i =>
      let c' := removePending c i
      if truthyOpt (msg.get "ok") then
        (c', [Effect.resolvePending i (msg.get "payload")])
      else
        (c', [Effect.rejectPending i (orElseMsg (getOpt (msg.get "error") "message")
                                                "Request failed")])
  | none => (c, [])

/-- The `ws.on('message', ...)` handler of `AntigravityGatewayClient` on a
successfully parsed JSON value, branch for branch:
challenge event, hello-ok response, failed response while unauthenticated
(on an authenticated failure the source falls through to the pending
branch), pending response, generic event, pass-through. -/
def handleMsg (c : Client) (now : Nat) (msg : Json) : Client × List Effect :=
  if msg.get "type" = some (.str "event") ∧
     msg.get "event" = some (.str "connect.challenge") then
    (c, send c (connectFrame c now))
  else if msg.get "type" = some (.str "res") ∧ truthyOpt (msg.get "ok") = true ∧
          getOpt (msg.get "payload") "type" = some (.str "hello-ok") then
    ({ c with authenticated := true, serverInfo := msg.get "payload" },
     [Effect.resolveConnect ConnectResolution.client])
  else if msg.get "type" = some (.str "res") ∧ truthyOpt (msg.get "ok") = false ∧
          c.authenticated = false then
    (c, [Effect.rejectConnect (orElseMsg (getOpt (msg.get "error") "message")
                                         "Connection failed")])
  else if msg.get "type" = some (.str "res") ∧ pendingHit c msg = true then
    completeResponse c msg
  else if msg.get "type" = some (.str "event") then
    (c, [Effect.onMessage msg])
  else
    (c, [Effect.onMessage msg])

/-- Inbound socket data before JSON parsing: `malformed` stands for any
byte payload on which `JSON.parse` throws. -/
inductive RawData where
  | malformed
  | text (j : Json)

/-- A fault escaping a callback (no surrounding try/catch). -/
inductive JsFault where
  | uncaughtParseError
deriving DecidableEq, Repr

/-- The full `ws.on('message', ...)` handler of `AntigravityGatewayClient`:
`JSON.parse(data.toString())` is not guarded, so a malformed payload
throws out of the callback. -/
def handleData (c : Client) (now : Nat) (d : RawData) :
    Except JsFault (Client × List Effect) :=
  match d with
  | .malformed => .error JsFault.uncaughtParseError
  | .text msg => .ok (handleMsg c now msg)

/-- The `ws.on('open', ...)` handler. -/
def handleOpen (c : Client) : Client :=
  { c with connected := true, ws := c.ws.map (fun _ => WsReady.opened) }

/-- The `ws.on('close', ...)` handler: clears the flags and nothing else
(pending requests are left untouched). -/
def handleClose (c : Client) : Client × List Effect :=
  ({ c with connected := false, authenticated := false,
            ws := c.ws.map (fun _ => WsReady.closed) }, [])

/-- `connect()` (state part): assigns a fresh WebSocket to `this.ws`. -/
def connectStart (c : Client) : Client :=
  { c with ws := some WsReady.connecting }

/-- The per-request 30 s `setTimeout` callback for id `id`: if the entry is
still present it is deleted and the caller rejected with
`'Request timeout'`; otherwise nothing happens. -/
def fireTimeout (c : Client) (id : Json) : Client × List Effect :=
  if id ∈ c.pending then
    (removePending c id, [Effect.rejectPending id "Request timeout"])
  else (c, [])

/-- `request(method, params)`: throws `'Not authenticated - call connect()
first'` before any other action when not authenticated; otherwise
allocates `String(++this.messageId)`, registers the pending entry and
sends the framed request (subject to `send`'s open-socket gate).  Returns
the new state, the emitted effects and the allocated id. -/
def request (c : Client) (method : String) (params : Json) :
    Except String (Client × List Effect × Json) :=
  if c.authenticated = false then
    .error "Not authenticated - call connect() first"
  else
    let id : Json := .str (toString (c.messageId + 1))
    let c' := { c with messageId := c.messageId + 1, pending := id :: c.pending }
    .ok (c', send c' (jobj [("type", .str "req"), ("id", id),
                            ("method", .str method), ("params", params)]), id)

/-- The frames/effects emitted by a `request` call (none when it throws). -/
def requestFrames (c : Client) (method : String) (params : Json) : List Effect :=
  match request c method params with
  | .ok r => r.2.1
  | .error _ => []

/-! ## Part 001: `GatewayConnection` -/

/-- Workspace configuration read by `GatewayConnection`
(`openclaw.autoConnect`, `openclaw.gatewayToken`). -/
structure GwConfig where
  autoConnect : Bool
  gatewayToken : String
deriving DecidableEq, Repr

/-- State of a `GatewayConnection` instance (source `part_001`).
`sock = none` models `this.ws === undefined`, otherwise the socket's
`readyState`.  `reconnectTimer` is the timer handle stored in the field
(it goes stale after the timer fires: the source never clears the field on
fire).  `liveTimers` is ghost state: the set of reconnect timeouts created
by `setTimeout` and neither fired nor cancelled by `clearTimeout`;
`nextTimer` supplies fresh timer handles.  `oldSocks` is ghost state: the
number of previously owned sockets that were replaced while still live
(never closed). -/
structure GwConn where
  sock : Option WsReady
  reconnectTimer : Option Nat
  liveTimers : List Nat
  nextTimer : Nat
  messageId : Int
  pending : List Int
  status : String
  oldSocks : Nat
deriving DecidableEq, Repr

/-- A freshly constructed `GatewayConnection`. -/
def gwInit : GwConn :=
  { sock := none, reconnectTimer := none, liveTimers := [], nextTimer := 0,
    messageId := 0, pending := [], status := "disconnected", oldSocks := 0 }

/-- Observable effects of one `GatewayConnection` step. -/
inductive GwEffect where
  | wsSend (j : Json)
  | resolvePending (id : Int) (result : Option Json)
  | rejectPending (id : Int) (msg : String)
  | showInfo (s : String)
  | showWarning (s : String)
  | newWebSocket
  | closeSocket
deriving DecidableEq, Repr

/-- The pluggable inbound-invocation handler (`executeVSCodeAction`):
given `action` and `params` (each possibly `undefined`), either a result
or a thrown error message. -/
def Handler : Type := Option Json → Option Json → Except String Json

/-- A socket that has been created and not yet fully closed. -/
def isLive : Option WsReady → Bool
  | some WsReady.connecting => true
  | some WsReady.opened => true
  | some WsReady.closing => true
  | _ => false

/-- Sockets currently alive for this session: the owned one plus the
replaced-but-never-closed ones. -/
def liveSockets (c : GwConn) : Nat :=
  c.oldSocks + (if isLive c.sock then 1 else 0)

/-- `get isConnected()`: `this.ws?.readyState === WebSocket.OPEN`. -/
def GwConn.isConnected (c : GwConn) : Bool :=
  c.sock = some WsReady.opened

/-- `send(message)`: transmits only when the socket exists and is OPEN,
otherwise silently drops the frame. -/
def gwSend (c : GwConn) (m : Json) : List GwEffect :=
  if c.sock = some WsReady.opened then [GwEffect.wsSend m] else []

/-- `connect()`: returns immediately while `isConnected`; otherwise sets
status `connecting` and assigns `this.ws = new WebSocket(url)` — the
previous socket, if still live, is dropped without being closed. -/
def gwConnect (c : GwConn) : GwConn × List GwEffect :=
  if c.isConnected then (c, [])
  else
    ({ c with status := "connecting",
              oldSocks := c.oldSocks + (if isLive c.sock then 1 else 0),
              sock := some WsReady.connecting },
     [GwEffect.newWebSocket])

/-- `clearTimeout(this.reconnectTimer)` (the field itself is only cleared
where the source clears it). -/
def cancelFieldTimer (c : GwConn) : GwConn :=
  match c.reconnectTimer with
  | some t => { c with liveTimers := c.liveTimers.filter (fun u => u != t) }
  | none => c

/-- `scheduleReconnect()`: nothing unless `autoConnect`; else cancel the
timer in the field (if any) and arm a fresh 5 s timer. -/
def scheduleReconnect (cfg : GwConfig) (c : GwConn) : GwConn :=
  if cfg.autoConnect = false then c
  else
    let c1 := cancelFieldTimer c
    { c1 with reconnectTimer := some c1.nextTimer,
              liveTimers := c1.nextTimer :: c1.liveTimers,
              nextTimer := c1.nextTimer + 1 }

/-- `disconnect()`: clear the reconnect timer, then `ws.close()` and drop
the handle.  The freshly closed socket is no longer live; its `close`
callback will still fire later (delivered as a separate `sockClose`
event). -/
def gwDisconnect (c : GwConn) : GwConn × List GwEffect :=
  let c1 := { (cancelFieldTimer c) with reconnectTimer := none }
  match c1.sock with
  | some _ => ({ c1 with sock := none, status := "disconnected" },
               [GwEffect.closeSocket])
  | none => ({ c1 with status := "disconnected" }, [])

/-- The `connect` authentication frame sent by `authenticate(token)` on
socket open (`auth` is omitted when the token is empty — `undefined`
fields are dropped by `JSON.stringify`). -/
def authFrame (token : String) : Json :=
  jobj ([("type", .str "connect"),
         ("params", jobj
           ([("role", .str "extension"),
             ("name", .str "vscode"),
             ("version", .str "0.1.0"),
             ("capabilities", jarr [.str "vscode.openFile", .str "vscode.navigate",
                                    .str "vscode.terminal", .str "vscode.edit",
                                    .str "vscode.diagnostics"])] ++
            (if token = "" then [] else [("auth", jobj [("token", .str token)])])))])

/-- The `ws.on('open', ...)` handler: the socket becomes OPEN and
`authenticate(token)` sends the connect frame. -/
def onSockOpen (cfg : GwConfig) (c : GwConn) : GwConn × List GwEffect :=
  let c1 := { c with sock := c.sock.map (fun _ => WsReady.opened) }
  (c1, gwSend c1 (authFrame cfg.gatewayToken))

/-- The `ws.on('close', ...)` handler: status `disconnected`, then
`scheduleReconnect()` — unconditionally, also when the closure was caused
by a caller `disconnect()` (the source records no disconnect intent). -/
def onSockClose (cfg : GwConfig) (c : GwConn) : GwConn × List GwEffect :=
  let c1 := { c with sock := c.sock.map (fun _ => WsReady.closed),
                     status := "disconnected" }
  (scheduleReconnect cfg c1, [])

/-- A reconnect timer firing: only a timer that is still live does
anything; it then runs `this.connect()`. -/
def onTimerFire (c : GwConn) (t : Nat) : GwConn × List GwEffect :=
  if t ∈ c.liveTimers then
    gwConnect { c with liveTimers := c.liveTimers.filter (fun u => u != t) }
  else (c, [])

/-- `sendRequest(method, params)`: allocate `++this.messageId`, register
the pending entry, send the frame (gated on the socket being open) and
return the id.  There is no authentication precondition in this class. -/
def gwSendRequest (c : GwConn) (method : String) (params : Json) :
    GwConn × List GwEffect × Int :=
  let id := c.messageId + 1
  let c' := { c with messageId := id, pending := id :: c.pending }
  (c', gwSend c' (jobj [("id", .num id), ("method", .str method),
                        ("params", params)]), id)

/-- The 30 s timeout callback of `sendRequest` for id `id`. -/
def gwFireTimeout (c : GwConn) (id : Int) : GwConn × List GwEffect :=
  if id ∈ c.pending then
    ({ c with pending := c.pending.filter (fun m => m != id) },
     [GwEffect.rejectPending id "Request timeout"])
  else (c, [])

/-- `msg.id && this.pendingRequests.has(msg.id)`: the map is keyed by the
numbers `++this.messageId`, so only a numeric `id` can match. -/
def gwRespHit (c : GwConn) (msg : Json) : Bool :=
  match msg.get "id" with
  | some (.num n) => (Json.num n).truthy && c.pending.contains n
  | _ => false

/-- The matched-response branch of `handleMessage`: delete the entry, then
reject with `msg.error.message || 'Unknown error'` when `msg.error` is
truthy, else resolve with `msg.result`. -/
def gwComplete (c : GwConn) (msg : Json) : GwConn × List GwEffect :=
  match msg.get "id" with
  | some (.num n) =>
      let c' := { c with pending := c.pending.filter (fun m => m != n) }
      if truthyOpt (msg.get "error") then
        (c', [GwEffect.rejectPending n (orElseMsg (getOpt (msg.get "error") "message")
                                                  "Unknown error")])
      else
        (c', [GwEffect.resolvePending n (msg.get "result")])
  | _ => (c, [])

/-- A reply frame `{ id: msg.id, ... }`: when `msg.id` is `undefined`,
`JSON.stringify` drops the field. -/
def mkIdFrame (idField : Option Json) (rest : List (String × Json)) : Json :=
  jobj ((match idField with
         | some i => [("id", i)]
         | none => []) ++ rest)

/-- `handleMessage(data)` of `GatewayConnection`, branch for branch inside
its try/catch: matched response, `connected` acknowledgment, pairing
error 1008, inbound `vscode.invoke` dispatch (handler faults are caught
and turned into an error reply), silent fall-through.  A malformed
payload is caught by the try/catch: state unchanged, no effects. -/
def gwHandleMessage (h : Handler) (c : GwConn) (d : RawData) :
    GwConn × List GwEffect :=
  match d with
  | .malformed => (c, [])
  | .text msg =>
    if gwRespHit c msg = true then
      gwComplete c msg
    else if msg.get "type" = some (.str "connected") then
      ({ c with status := "connected" },
       [GwEffect.showInfo "OpenClaw: Connected to gateway"])
    else if msg.get "type" = some (.str "error") ∧
            msg.get "code" = some (.num 1008) then
      ({ c with status := "pairing" },
       [GwEffect.showWarning "OpenClaw: Pairing required. Approve in gateway."])
    else if msg.get "method" = some (.str "vscode.invoke") then
      match h (getOpt (msg.get "params") "action")
              (getOpt (msg.get "params") "params") with
      | .ok result => (c, gwSend c (mkIdFrame (msg.get "id") [("result", result)]))
      | .error e =>
          (c, gwSend c (mkIdFrame (msg.get "id")
                         [("error", jobj [("message", .str e)])]))
    else (c, [])

/-- The operations that drive a `GatewayConnection`: public API calls,
socket callbacks, timer callbacks and request timeouts. -/
inductive GwOp where
  | connect
  | disconnect
  | sockOpen
  | sockClose
  | sockError
  | timerFire (t : Nat)
  | message (d : RawData)
  | request (method : String) (params : Json)
  | reqTimeout (id : Int)

/-- One step of the `GatewayConnection` event loop. -/
def gwStep (cfg : GwConfig) (h : Handler) (c : GwConn) : GwOp → GwConn × List GwEffect
  | .connect => gwConnect c
  | .disconnect => gwDisconnect c
  | .sockOpen => onSockOpen cfg c
  | .sockClose => onSockClose cfg c
  | .sockError => ({ c with status := "error" }, [])
  | .timerFire t => onTimerFire c t
  | .message d => gwHandleMessage h c d
  | .request m p => let r := gwSendRequest c m p; (r.1, r.2.1)
  | .reqTimeout id => gwFireTimeout c id

/-- Run a sequence of operations, accumulating the emitted effects. -/
def gwRun (cfg : GwConfig) (h : Handler) (c : GwConn) : List GwOp → GwConn × List GwEffect
  | [] => (c, [])
  | op :: ops =>
      let r := gwStep cfg h c op
      let rest := gwRun cfg h r.1 ops
      (rest.1, r.2 ++ rest.2)

/-! ## Trace machinery for `AntigravityGatewayClient` -/

/-- An ordinary server response frame `{type:'res', id, ok:true, payload}`. -/
def mkRes (id payload : Json) : Json :=
  jobj [("type", .str "res"), ("id", id), ("ok", .bool true),
        ("payload", payload)]

/-- Events that can race around a pending entry of
`AntigravityGatewayClient`: an inbound message, a request-timeout timer
firing, the socket closing. -/
inductive P0Event where
  | msg (now : Nat) (j : Json)
  | timeout (id : Json)
  | closeEvt

/-- One event-loop step of `AntigravityGatewayClient`. -/
def p0Step (c : Client) : P0Event → Client × List Effect
  | .msg now j => handleMsg c now j
  | .timeout id => fireTimeout c id
  | .closeEvt => handleClose c

/-- Run a sequence of events, accumulating effects. -/
def p0Run (c : Client) : List P0Event → Client × List Effect
  | [] => (c, [])
  | e :: es =>
      let r := p0Step c e
      let rest := p0Run r.1 es
      (rest.1, r.2 ++ rest.2)

/-- Is this effect a completion (resolution or rejection) of the pending
request with correlation id `id`? -/
def isCompletionFor (id : Json) : Effect → Bool
  | .resolvePending i _ => i == id
  | .rejectPending i _ => i == id
  | _ => false

/-- How many effects in the list complete the pending request `id`. -/
def completionsFor (id : Json) (effs : List Effect) : Nat :=
  (effs.filter (isCompletionFor id)).length

/-- Deliver a list of `(id, payload)` response frames in order. -/
def deliverResponses (c : Client) (now : Nat) : List (Json × Json) → Client × List Effect
  | [] => (c, [])
  | ip :: rest =>
      let r := handleMsg c now (mkRes ip.1 ip.2)
      let rr := deliverResponses r.1 now rest
      (rr.1, r.2 ++ rr.2)

/-! ## Auxiliary predicates on `GatewayConnection` effects and timers -/

/-- Is this effect an outbound frame on the socket? -/
def isSendEffect : GwEffect → Bool
  | .wsSend _ => true
  | _ => false

/-- Is this effect the construction of a new WebSocket (a connection
attempt)? -/
def isConnAttempt : GwEffect → Bool
  | .newWebSocket => true
  | _ => false

/-- Invariant tying the ghost set of live reconnect timeouts to the
`reconnectTimer` field: there is no live timer, or exactly the one the
field holds. -/
def TimerShape (c : GwConn) : Prop :=
  c.liveTimers = [] ∨ ∃ t, c.liveTimers = [t] ∧ c.reconnectTimer = some t

/-- A `GatewayConnection` with an OPEN socket, no pending timer and no
pending requests (the state reached after a successful connect). -/
def gwReady : GwConn :=
  { sock := some WsReady.opened, reconnectTimer := none, liveTimers := [],
    nextTimer := 0, messageId := 0, pending := [], status := "connected",
    oldSocks := 0 }

/-- Configuration with auto-reconnect enabled. -/
def cfgAuto : GwConfig := { autoConnect := true, gatewayToken := "" }

/-- A trivial inbound-invocation handler used to instantiate scenario
runs. -/
def trivialHandler : Handler := fun _ _ => .ok Json.null

/-- A handler that answers `{pong:true}` to anything (the spec's `ping`
scenario). -/
def pongHandler : Handler := fun _ _ => .ok (jobj [("pong", .bool true)])

/-- An `AntigravityGatewayClient` that has completed the handshake over an
open socket and has one outstanding request with id `"1"`. -/
def p0Pending1 : Client :=
  { token := "tok", ws := some WsReady.opened, messageId := 1,
    pending := [Json.str "1"], connected := true, authenticated := true,
    serverInfo := none }

/-- An `AntigravityGatewayClient` waiting for the handshake on an open
socket (challenge not yet answered). -/
def p0Fresh : Client :=
  { token := "tok", ws := some WsReady.opened, messageId := 0, pending := [],
    connected := true, authenticated := false, serverInfo := none }

/-- A `GatewayConnection` with an OPEN socket and one outstanding request
with id `1`. -/
def gwPending1 : GwConn :=
  { gwReady with messageId := 1, pending := [1] }

/-- An authenticated `AntigravityGatewayClient` with two outstanding
requests, ids `"1"` and `"2"`. -/
def p0Pending2 : Client :=
  { p0Pending1 with messageId := 2, pending := [Json.str "1", Json.str "2"] }

/-- The hello-ok payload used in concrete handshake runs. -/
def helloPayload : Json :=
  jobj [("type", .str "hello-ok"), ("protocol", .num 3)]

/-- A server-invocation frame `{id:1, method:'vscode.invoke',
params:{action:'ping', params:{}}}`. -/
def invokeFrame1 : Json :=
  jobj [("id", .num 1), ("method", .str "vscode.invoke"),
        ("params", jobj [("action", .str "ping"), ("params", jobj [])])]

/-- An `AntigravityGatewayClient` whose socket field was cleared
(`this.ws = null`). -/
def p0NoSock : Client := { p0Fresh with ws := none }

/-- A handler that always throws (its message is `"boom"`). -/
def failingHandler : Handler := fun _ _ => .error "boom"

/-! ## Theorems -/

/-! ### Field-access lemmas for response frames -/

theorem mkRes_get_type (id p : Json) :
    (mkRes id p).get "type" = some (.str "res") := rfl

theorem mkRes_get_id (id p : Json) : (mkRes id p).get "id" = some id := rfl

theorem mkRes_get_ok (id p : Json) :
    (mkRes id p).get "ok" = some (.bool true) := rfl

theorem mkRes_get_payload (id p : Json) :
    (mkRes id p).get "payload" = some p := rfl

/-! ### Pending-table lemmas for `AntigravityGatewayClient` -/

theorem not_mem_removePending (c : Client) (id : Json) :
    id ∉ (removePending c id).pending := by
  simp [removePending]

theorem mem_removePending_of_ne (c : Client) {x id : Json} (hx : x ∈ c.pending)
    (hne : x ≠ id) : x ∈ (removePending c id).pending := by
  simp [removePending, hx, hne]

/-- An ordinary ok-response whose id is pending and whose payload is not
hello-ok shaped lands in the pending-response branch and resolves that
entry with the payload. -/
theorem handleMsg_mkRes (c : Client) (now : Nat) (id p : Json)
    (hmem : id ∈ c.pending) (htr : id.truthy = true)
    (hp : p.get "type" ≠ some (.str "hello-ok")) :
    handleMsg c now (mkRes id p) =
      (removePending c id, [Effect.resolvePending id (some p)]) := by
  have hhit : pendingHit c (mkRes id p) = true := by
    show (id.truthy && c.pending.contains id) = true
    simp [htr, List.elem_iff, hmem]
  have h1 : ¬ ((mkRes id p).get "type" = some (.str "event") ∧
               (mkRes id p).get "event" = some (.str "connect.challenge")) := by
    rw [mkRes_get_type]; rintro ⟨h, -⟩; exact absurd h (by decide)
  have h2 : ¬ ((mkRes id p).get "type" = some (.str "res") ∧
               truthyOpt ((mkRes id p).get "ok") = true ∧
               getOpt ((mkRes id p).get "payload") "type" =
                 some (.str "hello-ok")) := by
    rintro ⟨-, -, h⟩
    rw [mkRes_get_payload] at h
    exact hp h
  have h3 : ¬ ((mkRes id p).get "type" = some (.str "res") ∧
               truthyOpt ((mkRes id p).get "ok") = false ∧
               c.authenticated = false) := by
    rintro ⟨-, h, -⟩
    rw [mkRes_get_ok] at h
    exact absurd h (by decide)
  unfold handleMsg
  rw [if_neg h1, if_neg h2, if_neg h3, if_pos ⟨mkRes_get_type id p, hhit⟩]
  rfl

/-- Each branch of the message handler emits at most one completion for a
given id, and a completion implies the id was pending and is pending no
longer. -/
theorem handleMsg_completions (c : Client) (now : Nat) (j : Json) (id : Json) :
    completionsFor id (handleMsg c now j).2 = 0 ∨
    (completionsFor id (handleMsg c now j).2 = 1 ∧ id ∈ c.pending ∧
     id ∉ (handleMsg c now j).1.pending) := by
  unfold handleMsg
  split
  · left
    unfold send
    split <;> simp [completionsFor, isCompletionFor]
  split
  · left; simp [completionsFor, isCompletionFor]
  split
  · left; simp [completionsFor, isCompletionFor]
  split
  · next hcond =>
      unfold completeResponse
      rcases hcond with ⟨-, hhit⟩
      split
      · next i heq =>
          have hi : i ∈ c.pending := by
            unfold pendingHit at hhit
            rw [heq] at hhit
            simpa [List.elem_iff] using (Bool.and_elim_right hhit)
          by_cases hix : i = id
          · subst hix
            right
            refine ⟨?_, hi, ?_⟩
            · split <;> simp [completionsFor, isCompletionFor]
            · split <;> simpa using not_mem_removePending c i
          · left
            split <;> simp [completionsFor, isCompletionFor, hix]
      · left; simp [completionsFor]
  split
  · left; simp [completionsFor, isCompletionFor]
  · left; simp [completionsFor, isCompletionFor]

/-- The message handler never adds a pending entry. -/
theorem handleMsg_pending_subset (c : Client) (now : Nat) (j : Json) :
    ∀ id, id ∈ (handleMsg c now j).1.pending → id ∈ c.pending := by
  intro id
  unfold handleMsg
  split
  · exact fun h => h
  split
  · exact fun h => h
  split
  · exact fun h => h
  split
  · unfold completeResponse
    split
    · next i heq =>
        split <;>
          (intro h; exact (List.mem_filter.mp h).1)
    · exact fun h => h
  split
  · exact fun h => h
  · exact fun h => h

theorem fireTimeout_completions (c : Client) (tid id : Json) :
    completionsFor id (fireTimeout c tid).2 = 0 ∨
    (completionsFor id (fireTimeout c tid).2 = 1 ∧ id ∈ c.pending ∧
     id ∉ (fireTimeout c tid).1.pending) := by
  unfold fireTimeout
  split
  · next hmem =>
      by_cases hix : tid = id
      · subst hix
        right
        refine ⟨by simp [completionsFor, isCompletionFor], hmem, ?_⟩
        simpa using not_mem_removePending c tid
      · left; simp [completionsFor, isCompletionFor, hix]
  · left; simp [completionsFor]

theorem fireTimeout_pending_subset (c : Client) (tid : Json) :
    ∀ id, id ∈ (fireTimeout c tid).1.pending → id ∈ c.pending := by
  intro id
  unfold fireTimeout
  split
  · intro h; exact (List.mem_filter.mp h).1
  · exact fun h => h

theorem p0Step_completions (c : Client) (e : P0Event) (id : Json) :
    completionsFor id (p0Step c e).2 = 0 ∨
    (completionsFor id (p0Step c e).2 = 1 ∧ id ∈ c.pending ∧
     id ∉ (p0Step c e).1.pending) := by
  cases e with
  | msg now j => exact handleMsg_completions c now j id
  | timeout tid => exact fireTimeout_completions c tid id
  | closeEvt => left; simp [p0Step, handleClose, completionsFor]

theorem p0Step_pending_subset (c : Client) (e : P0Event) :
    ∀ id, id ∈ (p0Step c e).1.pending → id ∈ c.pending := by
  cases e with
  | msg now j => exact handleMsg_pending_subset c now j
  | timeout tid => exact fireTimeout_pending_subset c tid
  | closeEvt => exact fun _ h => h

theorem completionsFor_append (id : Json) (xs ys : List Effect) :
    completionsFor id (xs ++ ys) = completionsFor id xs + completionsFor id ys := by
  simp [completionsFor, List.filter_append]

/-- Once an id is absent from the table, no later event can complete it. -/
theorem p0Run_completions_absent (id : Json) :
    ∀ (es : List P0Event) (c : Client), id ∉ c.pending →
      completionsFor id (p0Run c es).2 = 0 := by
  intro es
  induction es with
  | nil => intro c _; simp [p0Run, completionsFor]
  | cons e es ih =>
      intro c hc
      have hstep : completionsFor id (p0Step c e).2 = 0 := by
        rcases p0Step_completions c e id with h | ⟨-, hmem, -⟩
        · exact h
        · exact absurd hmem hc
      have habs : id ∉ (p0Step c e).1.pending :=
        fun h => hc (p0Step_pending_subset c e id h)
      simp [p0Run, completionsFor_append, hstep, ih _ habs]

/-- Over any event sequence, a given id is completed at most once. -/
theorem p0Run_completions_le_one (id : Json) :
    ∀ (es : List P0Event) (c : Client),
      completionsFor id (p0Run c es).2 ≤ 1 := by
  intro es
  induction es with
  | nil => intro c; simp [p0Run, completionsFor]
  | cons e es ih =>
      intro c
      rw [show (p0Run c (e :: es)).2 = (p0Step c e).2 ++ (p0Run (p0Step c e).1 es).2
            from rfl,
          completionsFor_append]
      rcases p0Step_completions c e id with h | ⟨h1, -, habs⟩
      · rw [h]; simpa using ih (p0Step c e).1
      · rw [h1, p0Run_completions_absent id es _ habs]

/-- C4: completion of a pending request is at-most-once and `resolve` /
`expire` are mutually exclusive: over any event sequence a given id is
completed at most once; if the timeout fires first the caller is failed
with `Request timeout`, the entry is removed, and a response arriving
afterwards completes nothing; if a matching response arrives first it
resolves the entry with its payload and the later timer firing is a
no-op. -/
theorem c4_completion_at_most_once :
    (∀ (id : Json) (c : Client) (es : List P0Event),
       completionsFor id (p0Run c es).2 ≤ 1) ∧
    (∀ (c : Client) (id : Json), id ∈ c.pending →
       fireTimeout c id =
         (removePending c id, [Effect.rejectPending id "Request timeout"]) ∧
       (∀ (now : Nat) (j : Json),
          completionsFor id (handleMsg (removePending c id) now j).2 = 0)) ∧
    (∀ (c : Client) (now : Nat) (id p : Json),
       id ∈ c.pending → id.truthy = true →
       p.get "type" ≠ some (.str "hello-ok") →
       handleMsg c now (mkRes id p) =
         (removePending c id, [Effect.resolvePending id (some p)]) ∧
       fireTimeout (removePending c id) id = (removePending c id, [])) := by
  refine ⟨fun id c es => p0Run_completions_le_one id es c, ?_, ?_⟩
  · intro c id hmem
    constructor
    · simp [fireTimeout, hmem]
    · intro now j
      rcases handleMsg_completions (removePending c id) now j id with h | ⟨-, hmem2, -⟩
      · exact h
      · exact absurd hmem2 (not_mem_removePending c id)
  · intro c now id p hmem htr hp
    refine ⟨handleMsg_mkRes c now id p hmem htr hp, ?_⟩
    simp [fireTimeout, not_mem_removePending c id]

/-- Witness for C4 at the client with outstanding id `"1"`: the timeout
fires, and a response for `"1"` arriving afterwards completes nothing;
symmetrically a response first, then a dead timer. -/
theorem c4_completion_at_most_once_witness :
    Json.str "1" ∈ p0Pending1.pending ∧
    fireTimeout p0Pending1 (Json.str "1") =
      (removePending p0Pending1 (Json.str "1"),
       [Effect.rejectPending (Json.str "1") "Request timeout"]) ∧
    completionsFor (Json.str "1")
      (handleMsg (removePending p0Pending1 (Json.str "1")) 0
        (mkRes (Json.str "1") (jobj [("value", .num 42)]))).2 = 0 ∧
    handleMsg p0Pending1 0 (mkRes (Json.str "1") (jobj [("value", .num 42)])) =
      (removePending p0Pending1 (Json.str "1"),
       [Effect.resolvePending (Json.str "1") (some (jobj [("value", .num 42)]))]) ∧
    fireTimeout (removePending p0Pending1 (Json.str "1")) (Json.str "1") =
      (removePending p0Pending1 (Json.str "1"), []) := by
  refine ⟨by decide,
          (c4_completion_at_most_once.2.1 p0Pending1 (Json.str "1") (by decide)).1,
          (c4_completion_at_most_once.2.1 p0Pending1 (Json.str "1") (by decide)).2 0
            (mkRes (Json.str "1") (jobj [("value", .num 42)])),
          (c4_completion_at_most_once.2.2 p0Pending1 0 (Json.str "1")
            (jobj [("value", .num 42)]) (by decide) (by decide) (by decide)).1,
          (c4_completion_at_most_once.2.2 p0Pending1 0 (Json.str "1")
            (jobj [("value", .num 42)]) (by decide) (by decide) (by decide)).2⟩

/-- Delivering well-formed, non-hello-ok ok-responses with distinct
pending ids produces exactly the matching resolutions, in delivery
order. -/
theorem deliverResponses_effects (now : Nat) :
    ∀ (rs : List (Json × Json)) (c : Client),
      (rs.map Prod.fst).Nodup →
      (∀ ip ∈ rs, (ip : Json × Json).1.truthy = true ∧ ip.1 ∈ c.pending ∧
                  ip.2.get "type" ≠ some (.str "hello-ok")) →
      (deliverResponses c now rs).2 =
        rs.map (fun ip => Effect.resolvePending ip.1 (some ip.2)) := by
  intro rs
  induction rs with
  | nil => intro c _ _; rfl
  | cons ip rest ih =>
      intro c hnodup hall
      obtain ⟨htr, hmem, hp⟩ := hall ip (List.mem_cons_self ip rest)
      have hhead := handleMsg_mkRes c now ip.1 ip.2 hmem htr hp
      have hrest : (∀ jp ∈ rest, (jp : Json × Json).1.truthy = true ∧
          jp.1 ∈ (removePending c ip.1).pending ∧
          jp.2.get "type" ≠ some (.str "hello-ok")) := by
        intro jp hjp
        obtain ⟨htr2, hmem2, hp2⟩ := hall jp (List.mem_cons_of_mem ip hjp)
        have hne : jp.1 ≠ ip.1 := by
          have := (List.nodup_cons.mp hnodup).1
          intro he
          exact this (he ▸ List.mem_map_of_mem Prod.fst hjp)
        exact ⟨htr2, mem_removePending_of_ne c hmem2 hne, hp2⟩
      have htl := ih (removePending c ip.1) (List.nodup_cons.mp hnodup).2 hrest
      show (handleMsg c now (mkRes ip.1 ip.2)).2 ++
            (deliverResponses (handleMsg c now (mkRes ip.1 ip.2)).1 now rest).2 = _
      rw [hhead]
      simpa using htl

/-- C3 (amended): for responses that are ok, carry a truthy pending id and
whose payload is not hello-ok shaped, matching is purely by correlation
id: delivering the responses in any permuted order resolves each pending
request with exactly the payload of the response carrying its own id.
(The restriction on the payload is forced by the counterexample: an
ok-response whose payload has `type:'hello-ok'` is consumed by the
handshake branch instead.) -/
theorem c3_order_independent_matching :
    ∀ (c : Client) (now : Nat) (rs rsPerm : List (Json × Json)),
      rsPerm.Perm rs →
      (rs.map Prod.fst).Nodup →
      (∀ ip ∈ rs, (ip : Json × Json).1.truthy = true ∧ ip.1 ∈ c.pending ∧
                  ip.2.get "type" ≠ some (.str "hello-ok")) →
      (deliverResponses c now rsPerm).2 =
        rsPerm.map (fun ip => Effect.resolvePending ip.1 (some ip.2)) ∧
      (∀ ip ∈ rs, Effect.resolvePending ip.1 (some ip.2) ∈
        (deliverResponses c now rsPerm).2) := by
  intro c now rs rsPerm hperm hnodup hall
  have hnodup2 : (rsPerm.map Prod.fst).Nodup :=
    ((hperm.map Prod.fst).symm.nodup_iff).mp hnodup
  have hall2 : ∀ ip ∈ rsPerm, (ip : Json × Json).1.truthy = true ∧
      ip.1 ∈ c.pending ∧ ip.2.get "type" ≠ some (.str "hello-ok") :=
    fun ip hip => hall ip (hperm.mem_iff.mp hip)
  have heq := deliverResponses_effects now rsPerm c hnodup2 hall2
  refine ⟨heq, ?_⟩
  intro ip hip
  rw [heq]
  exact List.mem_map_of_mem _ (hperm.mem_iff.mpr hip)

/-- Witness for C3: two outstanding requests answered in reversed order
each resolve with their own payload. -/
theorem c3_order_independent_matching_witness :
    (deliverResponses p0Pending2 0
      [(Json.str "2", jobj [("r", .num 2)]), (Json.str "1", jobj [("r", .num 1)])]).2 =
      [Effect.resolvePending (Json.str "2") (some (jobj [("r", .num 2)])),
       Effect.resolvePending (Json.str "1") (some (jobj [("r", .num 1)]))] ∧
    Effect.resolvePending (Json.str "1") (some (jobj [("r", .num 1)])) ∈
      (deliverResponses p0Pending2 0
        [(Json.str "2", jobj [("r", .num 2)]), (Json.str "1", jobj [("r", .num 1)])]).2 := by
  refine ⟨?_, ?_⟩
  · exact (c3_order_independent_matching p0Pending2 0
      [(Json.str "1", jobj [("r", .num 1)]), (Json.str "2", jobj [("r", .num 2)])]
      [(Json.str "2", jobj [("r", .num 2)]), (Json.str "1", jobj [("r", .num 1)])]
      (List.Perm.swap _ _ _) (by decide) (by decide)).1
  · exact (c3_order_independent_matching p0Pending2 0
      [(Json.str "1", jobj [("r", .num 1)]), (Json.str "2", jobj [("r", .num 2)])]
      [(Json.str "2", jobj [("r", .num 2)]), (Json.str "1", jobj [("r", .num 1)])]
      (List.Perm.swap _ _ _) (by decide) (by decide)).2
      (Json.str "1", jobj [("r", .num 1)]) (by decide)

/-- C3 counterexample: a response carrying the pending id `"1"` but whose
payload is `{type:'hello-ok'}` is consumed by the handshake branch: the
pending request is not resolved with that payload (the entry is not even
removed), refuting matching "purely by correlation id" for all response
frames. -/
theorem c3_counterexample :
    Effect.resolvePending (Json.str "1") (some helloPayload) ∉
      (handleMsg p0Pending1 0 (mkRes (Json.str "1") helloPayload)).2 ∧
    (handleMsg p0Pending1 0 (mkRes (Json.str "1") helloPayload)).1.pending =
      [Json.str "1"] ∧
    (handleMsg p0Pending1 0 (mkRes (Json.str "1") helloPayload)).2 =
      [Effect.resolveConnect ConnectResolution.client] := by
  decide

/-- C2: `request(method, params)` on a session that is not authenticated
fails immediately with the `Not authenticated` error and emits no frame
(the throw happens before any socket interaction and before the pending
table is touched). -/
theorem c2_unauthenticated_request_rejected :
    ∀ (c : Client) (method : String) (params : Json),
      c.authenticated = false →
      request c method params = .error "Not authenticated - call connect() first" ∧
      requestFrames c method params = [] := by
  intro c m p h
  constructor <;> simp [request, requestFrames, h]

/-- Witness for C2 at the freshly connected, unauthenticated client. -/
theorem c2_unauthenticated_request_rejected_witness :
    p0Fresh.authenticated = false ∧
    request p0Fresh "status" (jobj []) =
      .error "Not authenticated - call connect() first" ∧
    requestFrames p0Fresh "status" (jobj []) = [] := by
  refine ⟨by decide, ?_, ?_⟩
  · exact (c2_unauthenticated_request_rejected p0Fresh "status" (jobj []) (by decide)).1
  · exact (c2_unauthenticated_request_rejected p0Fresh "status" (jobj []) (by decide)).2

/-- C10: both `send` implementations transmit exactly when the socket
exists and is OPEN and silently drop the frame otherwise; a
`sendRequest` issued while the socket is not open still registers the
pending entry, emits no frame, and the 30 s timeout callback later fails
the caller with `Request timeout`. -/
theorem c10_send_gating :
    (∀ (c : GwConn) (m : Json), c.sock ≠ some WsReady.opened → gwSend c m = []) ∧
    (∀ (c : GwConn) (m : Json), c.sock = some WsReady.opened →
       gwSend c m = [GwEffect.wsSend m]) ∧
    (∀ (c : Client) (m : Json), c.ws ≠ some WsReady.opened → send c m = []) ∧
    (∀ (c : GwConn) (method : String) (params : Json),
       c.sock ≠ some WsReady.opened →
       (gwSendRequest c method params).2.1 = [] ∧
       (gwSendRequest c method params).1.pending = (c.messageId + 1) :: c.pending ∧
       (gwFireTimeout (gwSendRequest c method params).1 (c.messageId + 1)).2 =
         [GwEffect.rejectPending (c.messageId + 1) "Request timeout"]) := by
  refine ⟨?_, ?_, ?_, ?_⟩
  · intro c m h; simp [gwSend, h]
  · intro c m h; simp [gwSend, h]
  · intro c m h; simp [send, h]
  · intro c method params h
    refine ⟨by simp [gwSendRequest, gwSend, h], by simp [gwSendRequest], ?_⟩
    simp [gwSendRequest, gwFireTimeout]

/-- Witness for C10 at a connection with no socket. -/
theorem c10_send_gating_witness :
    gwSend gwInit (jobj []) = [] ∧
    gwSend gwReady (jobj []) = [GwEffect.wsSend (jobj [])] ∧
    send p0NoSock (jobj []) = [] ∧
    (gwSendRequest gwInit "status" (jobj [])).2.1 = [] ∧
    (gwSendRequest gwInit "status" (jobj [])).1.pending = [1] ∧
    (gwFireTimeout (gwSendRequest gwInit "status" (jobj [])).1 1).2 =
      [GwEffect.rejectPending 1 "Request timeout"] := by
  refine ⟨c10_send_gating.1 gwInit (jobj []) (by decide),
          c10_send_gating.2.1 gwReady (jobj []) (by decide),
          c10_send_gating.2.2.1 p0NoSock (jobj []) (by decide),
          (c10_send_gating.2.2.2 gwInit "status" (jobj []) (by decide)).1,
          ?_,
          (c10_send_gating.2.2.2 gwInit "status" (jobj []) (by decide)).2.2⟩
  exact (c10_send_gating.2.2.2 gwInit "status" (jobj []) (by decide)).2.1

/-- C7 (amended): `GatewayConnection.handleMessage` catches a malformed
payload, leaves the state unchanged and emits nothing (in particular it
resolves no pending request); `AntigravityGatewayClient`'s message
handler, by contrast, parses without a guard, so a malformed payload
escapes the callback as an uncaught fault. -/
theorem c7_amended_malformed_handling :
    (∀ (h : Handler) (c : GwConn),
       gwHandleMessage h c RawData.malformed = (c, [])) ∧
    (∀ (c : Client) (now : Nat),
       handleData c now RawData.malformed = .error JsFault.uncaughtParseError) :=
  ⟨fun _ _ => rfl, fun _ _ => rfl⟩

/-- C7 counterexample: on the `AntigravityGatewayClient` session, a
malformed inbound payload does crash the message callback (the claim says
processing a malformed frame never faults the session). -/
theorem c7_counterexample :
    handleData p0Pending1 0 RawData.malformed =
      .error JsFault.uncaughtParseError := rfl

/-- C5 (amended): the close handler clears `connected` and
`authenticated` but fails no pending request — the entries survive the
closure and each caller is only failed later, by its own 30 s timer, with
`Request timeout`; `connect()` can then be invoked again and installs a
fresh socket. -/
theorem c5_amended_close_behavior :
    ∀ c : Client,
      (handleClose c).2 = [] ∧
      (handleClose c).1.pending = c.pending ∧
      (handleClose c).1.connected = false ∧
      (handleClose c).1.authenticated = false ∧
      (∀ id, id ∈ c.pending →
         (fireTimeout (handleClose c).1 id).2 =
           [Effect.rejectPending id "Request timeout"]) ∧
      connectStart (handleClose c).1 =
        { c with connected := false, authenticated := false,
                 ws := some WsReady.connecting } := by
  intro c
  refine ⟨rfl, rfl, rfl, rfl, ?_, rfl⟩
  intro id hid
  simp [handleClose, fireTimeout, hid]

/-- Witness for C5 at a client with one outstanding request. -/
theorem c5_amended_close_behavior_witness :
    Json.str "1" ∈ p0Pending1.pending ∧
    (fireTimeout (handleClose p0Pending1).1 (Json.str "1")).2 =
      [Effect.rejectPending (Json.str "1") "Request timeout"] :=
  ⟨by decide,
   (c5_amended_close_behavior p0Pending1).2.2.2.2.1 (Json.str "1") (by decide)⟩

/-- C5 counterexample: at socket close with one request outstanding, no
failure is delivered to the caller and the pending entry survives, so the
pending request does not "fail exactly once with a connection-closed
failure" at that moment. -/
theorem c5_counterexample :
    (handleClose p0Pending1).2 = [] ∧
    (handleClose p0Pending1).1.pending = [Json.str "1"] := by decide

/-- C1 (amended): over an open socket, the challenge event makes the
client send exactly one `connect` request carrying the configured bearer
token under `params.auth.token`; a subsequent ok response whose payload
type is `hello-ok` flips `authenticated` to true, records the payload as
the server metadata — and resolves the in-flight `connect()` call with
the client object itself (`resolve(this)`), not with the payload. -/
theorem c1_amended_handshake :
    ∀ (c : Client) (now : Nat) (msg : Json),
      c.ws = some WsReady.opened →
      ((msg.get "type" = some (.str "event") →
        msg.get "event" = some (.str "connect.challenge") →
        handleMsg c now msg = (c, [Effect.sendFrame (connectFrame c now)]) ∧
        (connectFrame c now).get "method" = some (.str "connect") ∧
        getOpt (getOpt ((connectFrame c now).get "params") "auth") "token" =
          some (.str c.token)) ∧
       (∀ p, msg.get "type" = some (.str "res") →
         truthyOpt (msg.get "ok") = true →
         msg.get "payload" = some p →
         p.get "type" = some (.str "hello-ok") →
         handleMsg c now msg =
           ({ c with authenticated := true, serverInfo := some p },
            [Effect.resolveConnect ConnectResolution.client]))) := by
  intro c now msg hws
  constructor
  · intro ht he
    refine ⟨?_, rfl, rfl⟩
    simp [handleMsg, ht, he, send, hws]
  · intro p ht hok hpay hptype
    simp [handleMsg, ht, hok, getOpt, hpay, hptype]

/-- Witness for C1 at the concrete handshake run of the spec scenario. -/
theorem c1_amended_handshake_witness :
    handleMsg p0Fresh 7
        (jobj [("type", .str "event"), ("event", .str "connect.challenge"),
               ("payload", jobj [("nonce", .str "abc")])]) =
      (p0Fresh, [Effect.sendFrame (connectFrame p0Fresh 7)]) ∧
    getOpt (getOpt ((connectFrame p0Fresh 7).get "params") "auth") "token" =
      some (.str "tok") ∧
    handleMsg p0Fresh 7 (mkRes (Json.str "connect-7") helloPayload) =
      ({ p0Fresh with authenticated := true, serverInfo := some helloPayload },
       [Effect.resolveConnect ConnectResolution.client]) := by
  refine ⟨?_, ?_, ?_⟩
  · exact ((c1_amended_handshake p0Fresh 7
      (jobj [("type", .str "event"), ("event", .str "connect.challenge"),
             ("payload", jobj [("nonce", .str "abc")])]) (by decide)).1
      (by decide) (by decide)).1
  · exact ((c1_amended_handshake p0Fresh 7
      (jobj [("type", .str "event"), ("event", .str "connect.challenge"),
             ("payload", jobj [("nonce", .str "abc")])]) (by decide)).1
      (by decide) (by decide)).2.2
  · exact (c1_amended_handshake p0Fresh 7
      (mkRes (Json.str "connect-7") helloPayload) (by decide)).2 helloPayload
      (by decide) (by decide) (by decide) (by decide)

/-- C1 counterexample: on the hello-ok response the in-flight `connect()`
is resolved with the client object (`resolve(this)`), not with the
hello-ok payload as the claim states. -/
theorem c1_counterexample :
    (handleMsg p0Fresh 0 (mkRes (Json.str "connect-0") helloPayload)).2 =
      [Effect.resolveConnect ConnectResolution.client] ∧
    Effect.resolveConnect (ConnectResolution.payload helloPayload) ∉
      (handleMsg p0Fresh 0 (mkRes (Json.str "connect-0") helloPayload)).2 := by
  decide

/-- C6 (amended): an inbound `vscode.invoke` frame whose id does not
collide with a pending client request (and which is not captured by the
`connected` / pairing-error branches), received while the socket is open,
produces exactly one reply frame echoing that id: the handler's result on
success, or `{error:{message}}` when the handler throws — the fault is
caught, never propagated.  (The no-collision hypothesis is forced by the
counterexample: the pending-response branch runs first.) -/
theorem c6_invoke_exactly_one_reply :
    ∀ (h : Handler) (c : GwConn) (msg idj : Json),
      c.sock = some WsReady.opened →
      msg.get "method" = some (.str "vscode.invoke") →
      msg.get "id" = some idj →
      gwRespHit c msg = false →
      msg.get "type" ≠ some (.str "connected") →
      ¬ (msg.get "type" = some (.str "error") ∧
         msg.get "code" = some (.num 1008)) →
      ((∀ r, h (getOpt (msg.get "params") "action")
               (getOpt (msg.get "params") "params") = .ok r →
          gwHandleMessage h c (.text msg) =
            (c, [GwEffect.wsSend (mkIdFrame (some idj) [("result", r)])])) ∧
       (∀ e, h (getOpt (msg.get "params") "action")
               (getOpt (msg.get "params") "params") = .error e →
          gwHandleMessage h c (.text msg) =
            (c, [GwEffect.wsSend (mkIdFrame (some idj)
                   [("error", jobj [("message", .str e)])])]))) := by
  intro h c msg idj hsock hmethod hid hresp htyc hte
  constructor
  · intro r hr
    simp [gwHandleMessage, hresp, htyc, hte, hmethod, hr, hid, gwSend, hsock]
  · intro e he
    simp [gwHandleMessage, hresp, htyc, hte, hmethod, he, hid, gwSend, hsock]

/-- Witness for C6: the spec's ping scenario — the handler answers
`{pong:true}` and exactly the reply `{id:1, result:{pong:true}}` is sent;
with a throwing handler, exactly the error reply is sent. -/
theorem c6_invoke_exactly_one_reply_witness :
    gwHandleMessage pongHandler gwReady (.text invokeFrame1) =
      (gwReady, [GwEffect.wsSend (mkIdFrame (some (Json.num 1))
        [("result", jobj [("pong", .bool true)])])]) ∧
    gwHandleMessage failingHandler gwReady (.text invokeFrame1) =
      (gwReady, [GwEffect.wsSend (mkIdFrame (some (Json.num 1))
        [("error", jobj [("message", .str "boom")])])]) := by
  refine ⟨?_, ?_⟩
  · exact (c6_invoke_exactly_one_reply pongHandler gwReady invokeFrame1 (Json.num 1)
      (by decide) (by decide) (by decide) (by decide) (by decide) (by decide)).1
      (jobj [("pong", .bool true)]) rfl
  · exact (c6_invoke_exactly_one_reply failingHandler gwReady invokeFrame1 (Json.num 1)
      (by decide) (by decide) (by decide) (by decide) (by decide) (by decide)).2
      "boom" rfl

/-- C6 counterexample: when the id of the `vscode.invoke` frame collides
with a pending client request id (here `1`), the pending-response branch
consumes the frame — the pending entry is resolved and *no* reply frame
is sent, refuting "exactly one reply per server-invocation id". -/
theorem c6_counterexample :
    (gwHandleMessage pongHandler gwPending1 (.text invokeFrame1)).2 =
      [GwEffect.resolvePending 1 none] ∧
    ((gwHandleMessage pongHandler gwPending1 (.text invokeFrame1)).2.filter
        isSendEffect) = [] := by
  decide

/-! ### Reconnect-timer lemmas for `GatewayConnection` -/

theorem cancelFieldTimer_liveTimers (c : GwConn) (hs : TimerShape c) :
    (cancelFieldTimer c).liveTimers = [] := by
  rcases hs with h0 | ⟨t, hl, hf⟩
  · unfold cancelFieldTimer
    split <;> simp [h0]
  · unfold cancelFieldTimer
    rw [hf]
    simp [hl]

theorem cancelFieldTimer_nextTimer (c : GwConn) :
    (cancelFieldTimer c).nextTimer = c.nextTimer := by
  unfold cancelFieldTimer; split <;> rfl

theorem cancelFieldTimer_sock (c : GwConn) :
    (cancelFieldTimer c).sock = c.sock := by
  unfold cancelFieldTimer; split <;> rfl

theorem scheduleReconnect_timerShape (cfg : GwConfig) (c : GwConn)
    (hs : TimerShape c) : TimerShape (scheduleReconnect cfg c) := by
  unfold scheduleReconnect
  split
  · exact hs
  · right
    refine ⟨(cancelFieldTimer c).nextTimer, ?_, ?_⟩
    · dsimp only
      rw [cancelFieldTimer_liveTimers c hs]
    · rfl

theorem gwConnect_timers (c : GwConn) :
    (gwConnect c).1.liveTimers = c.liveTimers ∧
    (gwConnect c).1.reconnectTimer = c.reconnectTimer := by
  unfold gwConnect; split <;> exact ⟨rfl, rfl⟩

/-- Only the two timer fields matter for the invariant. -/
theorem timerShape_of_eq {c c' : GwConn} (h1 : c'.liveTimers = c.liveTimers)
    (h2 : c'.reconnectTimer = c.reconnectTimer) (h : TimerShape c) :
    TimerShape c' := by
  unfold TimerShape at *
  rw [h1, h2]
  exact h

theorem gwHandleMessage_timers (h : Handler) (c : GwConn) (d : RawData) :
    (gwHandleMessage h c d).1.liveTimers = c.liveTimers ∧
    (gwHandleMessage h c d).1.reconnectTimer = c.reconnectTimer := by
  cases d with
  | malformed => exact ⟨rfl, rfl⟩
  | text msg =>
      unfold gwHandleMessage gwComplete
      repeat' split
      all_goals exact ⟨rfl, rfl⟩

theorem gwStep_timerShape (cfg : GwConfig) (h : Handler) (c : GwConn)
    (op : GwOp) (hs : TimerShape c) : TimerShape (gwStep cfg h c op).1 := by
  cases op with
  | connect =>
      exact timerShape_of_eq (gwConnect_timers c).1 (gwConnect_timers c).2 hs
  | disconnect =>
      have hnil := cancelFieldTimer_liveTimers c hs
      show TimerShape (gwDisconnect c).1
      unfold gwDisconnect
      rcases hsock : (cancelFieldTimer c).sock with - | s <;>
        simp only [hsock] <;> exact Or.inl hnil
  | sockOpen => exact hs
  | sockClose =>
      exact scheduleReconnect_timerShape cfg _
        (timerShape_of_eq rfl rfl hs)
  | sockError => exact hs
  | timerFire t =>
      show TimerShape (onTimerFire c t).1
      unfold onTimerFire
      split
      · next hmem =>
          rcases hs with h0 | ⟨u, hl, hf⟩
          · rw [h0] at hmem; simp at hmem
          · rw [hl] at hmem
            simp only [List.mem_singleton] at hmem
            subst hmem
            have hfil : c.liveTimers.filter (fun v => v != t) = [] := by
              rw [hl]; simp
            refine timerShape_of_eq (gwConnect_timers _).1 (gwConnect_timers _).2 ?_
            exact Or.inl hfil
      · exact hs
  | message d =>
      exact timerShape_of_eq (gwHandleMessage_timers h c d).1
        (gwHandleMessage_timers h c d).2 hs
  | request m p => exact hs
  | reqTimeout id =>
      show TimerShape (gwFireTimeout c id).1
      unfold gwFireTimeout
      split <;> exact hs

/-- C8 (amended): at most one reconnect timer is ever live (scheduling
cancels the previous one first); in the claim's scenario — unexpected
close with auto-reconnect enabled — exactly one attempt is scheduled, and
a `disconnect()` issued before the 5 s backoff fires cancels it, so no
connection attempt occurs on that trace.  (`disconnect()` does *not*
disable reconnection in general — see the counterexample.) -/
theorem c8_single_reconnect_timer :
    (∀ (cfg : GwConfig) (h : Handler) (ops : List GwOp),
       ((gwRun cfg h gwInit ops).1.liveTimers).length ≤ 1) ∧
    ((gwRun cfgAuto trivialHandler gwReady [GwOp.sockClose]).1.liveTimers.length = 1) ∧
    ((gwRun cfgAuto trivialHandler gwReady
        [GwOp.sockClose, GwOp.disconnect, GwOp.timerFire 0]).2.filter
          isConnAttempt = []) := by
  refine ⟨?_, by decide, by decide⟩
  intro cfg h ops
  have hshape : ∀ (ops : List GwOp) (c : GwConn), TimerShape c →
      TimerShape (gwRun cfg h c ops).1 := by
    intro ops
    induction ops with
    | nil => exact fun c hc => hc
    | cons op ops ih =>
        exact fun c hc => ih _ (gwStep_timerShape cfg h c op hc)
  rcases hshape ops gwInit (Or.inl rfl) with h0 | ⟨t, hl, -⟩
  · rw [h0]; simp
  · rw [hl]; simp

/-- C8 counterexample: `disconnect()` on a live socket triggers the
socket's `close` callback afterwards, whose handler unconditionally
re-arms the reconnect timer; when it fires, a connection attempt occurs
with no `connect()` call after the `disconnect()` — refuting "no
automatic reconnection attempt occurs until `connect()` is called
again". -/
theorem c8_counterexample :
    GwEffect.newWebSocket ∈
      (gwRun cfgAuto trivialHandler gwReady
        [GwOp.disconnect, GwOp.sockClose, GwOp.timerFire 0]).2 := by
  decide

/-- C9 (amended): `connect()` is a no-op exactly while the socket is OPEN;
from a dead socket (none or closed) it creates one fresh socket.  (While
a socket is still CONNECTING, `connect()` is *not* idempotent — see the
counterexample.) -/
theorem c9_amended_connect_idempotent_only_when_open :
    ∀ c : GwConn,
      (c.sock = some WsReady.opened → gwConnect c = (c, [])) ∧
      ((c.sock = none ∨ c.sock = some WsReady.closed) →
        (gwConnect c).2 = [GwEffect.newWebSocket] ∧
        (gwConnect c).1.sock = some WsReady.connecting ∧
        liveSockets (gwConnect c).1 = c.oldSocks + 1) := by
  intro c
  constructor
  · intro h; simp [gwConnect, GwConn.isConnected, h]
  · rintro (h | h) <;>
      simp [gwConnect, GwConn.isConnected, h, liveSockets, isLive]

/-- Witness for C9: no-op on the OPEN socket, fresh socket from the
initial state. -/
theorem c9_amended_connect_idempotent_only_when_open_witness :
    gwConnect gwReady = (gwReady, []) ∧
    (gwConnect gwInit).2 = [GwEffect.newWebSocket] ∧
    liveSockets (gwConnect gwInit).1 = gwInit.oldSocks + 1 :=
  ⟨(c9_amended_connect_idempotent_only_when_open gwReady).1 (by decide),
   ((c9_amended_connect_idempotent_only_when_open gwInit).2 (Or.inl (by decide))).1,
   ((c9_amended_connect_idempotent_only_when_open gwInit).2 (Or.inl (by decide))).2.2⟩

/-- C9 counterexample: calling `connect()` twice from the initial state —
the second call lands while the first socket is still CONNECTING — opens
a second WebSocket without discarding the first, so two live sockets
coexist (the claim says `connect()` is idempotent while connecting and
that the session never owns two live sockets). -/
theorem c9_counterexample :
    (gwRun cfgAuto trivialHandler gwInit [GwOp.connect, GwOp.connect]).2 =
      [GwEffect.newWebSocket, GwEffect.newWebSocket] ∧
    liveSockets (gwRun cfgAuto trivialHandler gwInit
      [GwOp.connect, GwOp.connect]).1 = 2 := by
  decide

end Gateway
